import Mathlib

/-!
Verification of the relation query cache of `react-admin`
(`packages/ra-core/src/dataProvider/useGetManyReference.ts`).

The hook `useGetManyReference` derives a canonical cache key with
`nameRelatedTo`, issues the fetch through `useQueryWithStore`, and composes
the final view from the oneToMany reducer selectors (`getReferences`,
`getIds`, `getTotal`).  The reducer, key namer and query coordinator live in
modules outside the snapshot, so they are modelled from the specification
(each such definition carries a `Modelled from the spec:` comment); the hook
itself, its memoised key computation and its selector wiring are embedded
from the source.
-/

namespace ReactAdmin

/-- A JSON-like primitive value used in records and filters. -/
inductive Value where
  | str (s : String)
  | int (n : Int)
deriving DecidableEq

/-- An identifier is an opaque string or integer. -/
inductive Identifier where
  | str (s : String)
  | int (n : Int)
deriving DecidableEq

/-- A filter is a JS object: an insertion-ordered association list of
field name to value, with pairwise distinct keys. -/
abbrev Filter := List (String × Value)

/-- Ordering of filter entries by field name, used for stable serialization. -/
def keyLE (p q : String × Value) : Prop := p.1 ≤ q.1

instance : DecidableRel keyLE := fun p q => inferInstanceAs (Decidable (p.1 ≤ q.1))

instance : IsTotal (String × Value) keyLE := ⟨fun a b => le_total a.1 b.1⟩

instance : IsTrans (String × Value) keyLE := ⟨fun _ _ _ h h' => le_trans h h'⟩

/-- Strict ordering of filter entries by field name. -/
def keyLT (p q : String × Value) : Prop := p.1 < q.1

instance : IsAntisymm (String × Value) keyLT := ⟨fun _ _ h h' => absurd h' (lt_asymm h)⟩

/-- Stable serialization order of a filter: its entries sorted by key. -/
def sortFilter (f : Filter) : Filter := List.insertionSort keyLE f

/-- The canonical key derived from the five key-relevant query components.
Two keys are equal exactly when their serialized strings would be. -/
structure CanonicalKey where
  resource : String
  id : Identifier
  referencingResource : String
  target : String
  filterKey : Filter
deriving DecidableEq

/-- Modelled from the spec: `nameRelatedTo` is imported from
`../reducer/admin/references/oneToMany`, which is not part of the snapshot.
Per the spec (KeyNamer), it is a pure function of
(resource, id, referencingResource, target, filter) that sorts the filter
keys before stringifying, so the key is the tuple of the four strings and
the filter in stable serialization order. -/
def nameRelatedTo (resource : String) (id : Identifier)
    (referencingResource target : String) (filter : Filter) : CanonicalKey :=
  ⟨resource, id, referencingResource, target, sortFilter filter⟩

/-- Request pagination, e.g. page 1, perPage 10. -/
structure Pagination where
  page : Nat
  perPage : Nat
deriving DecidableEq

/-- Request sort, e.g. field id, order ASC. -/
structure SortSpec where
  field : String
  order : String
deriving DecidableEq

/-- The parameters of a one-to-many reference query, as passed to the
dataProvider by `useQueryWithStore().getManyReference`. -/
structure ReferenceQuery where
  target : String
  id : Identifier
  pagination : Pagination
  sort : SortSpec
  filter : Filter
deriving DecidableEq

/-- A fetch descriptor: resource plus the full query, identifying one
concrete transport request. -/
structure FetchDescriptor where
  resource : String
  query : ReferenceQuery
deriving DecidableEq

/-- A record: its identifier plus the remaining fields. -/
structure Record where
  id : Identifier
  fields : List (String × Value)
deriving DecidableEq

/-- A relation cache entry: the ordered ids and the server-reported total. -/
structure CacheEntry where
  ids : List Identifier
  total : Nat
deriving DecidableEq

/-- The request state machine of one fetch descriptor. -/
inductive RequestState where
  | idle
  | loading
  | success
  | failure (e : Value)
deriving DecidableEq

/-- A successful transport response. -/
structure FetchResult where
  data : List Record
  total : Nat
deriving DecidableEq

/-- Association-list lookup by key (first match wins). -/
def lookupAssoc {α β : Type} [DecidableEq α] (k : α) : List (α × β) → Option β
  | [] => none
  | p :: rest => if p.1 = k then some p.2 else lookupAssoc k rest

/-- Association-list upsert: replaces the entry for `k`, or appends it. -/
def setAssoc {α β : Type} [DecidableEq α] (k : α) (v : β) :
    List (α × β) → List (α × β)
  | [] => [(k, v)]
  | p :: rest => if p.1 = k then (k, v) :: rest else p :: setAssoc k v rest

/-- Modelled from the spec: the shared store state seen by the hook.  The
redux store behind `useQueryWithStore` and `useSelector` is not part of the
snapshot; per the spec it holds the RelationCache (canonical key to entry),
the RecordStore (resource and id to record), the per-descriptor request
state, and we count transport invocations to state the dedup property. -/
structure CoordState where
  relationCache : List (CanonicalKey × CacheEntry)
  recordStore : List ((String × Identifier) × Record)
  requestState : List (FetchDescriptor × RequestState)
  transportCount : Nat
deriving DecidableEq

/-- The request state of a fetch descriptor (idle when never requested). -/
def requestStateOf (s : CoordState) (d : FetchDescriptor) : RequestState :=
  (lookupAssoc d s.requestState).getD RequestState.idle

/-- The canonical key of a fetch descriptor, as computed by the hook. -/
def descriptorKey (d : FetchDescriptor) (referencingResource : String) : CanonicalKey :=
  nameRelatedTo d.resource d.query.id referencingResource d.query.target d.query.filter

/-- Modelled from the spec: `useQueryWithStore` (not in the snapshot)
issues a fetch for a descriptor unless an identical one is already in
flight; a new fetch performs one transport invocation and moves the
descriptor to `loading`. -/
def startFetch (s : CoordState) (d : FetchDescriptor) : CoordState :=
  if requestStateOf s d = RequestState.loading then s
  else
    { s with
      requestState := setAssoc d RequestState.loading s.requestState
      transportCount := s.transportCount + 1 }

/-- Upsert a batch of fetched records into the record store. -/
def upsertMany (resource : String) (records : List Record)
    (store : List ((String × Identifier) × Record)) :
    List ((String × Identifier) × Record) :=
  records.foldl (fun st r => setAssoc (resource, r.id) r st) store

/-- Modelled from the spec: successful completion of a fetch writes
the ids and total into the RelationCache under the request's canonical key,
upserts the fetched records into the RecordStore, and settles the request. -/
def completeSuccess (s : CoordState) (d : FetchDescriptor)
    (referencingResource : String) (res : FetchResult) : CoordState :=
  { s with
    relationCache := setAssoc (descriptorKey d referencingResource)
      ⟨res.data.map Record.id, res.total⟩ s.relationCache
    recordStore := upsertMany d.resource res.data s.recordStore
    requestState := setAssoc d RequestState.success s.requestState }

/-- Modelled from the spec: a failed fetch only records the error on the
request state; it writes neither the RelationCache nor the RecordStore and
triggers no retry. -/
def completeFailure (s : CoordState) (d : FetchDescriptor) (e : Value) : CoordState :=
  { s with requestState := setAssoc d (RequestState.failure e) s.requestState }

/-- Modelled from the spec: selector `getIds` of the oneToMany reducer —
the cached ids for a canonical key, or the empty sequence. -/
def getIds (s : CoordState) (relatedTo : CanonicalKey) : List Identifier :=
  ((lookupAssoc relatedTo s.relationCache).map CacheEntry.ids).getD []

/-- Modelled from the spec: selector `getTotal` of the oneToMany reducer —
the cached total for a canonical key, or undefined. -/
def getTotal (s : CoordState) (relatedTo : CanonicalKey) : Option Nat :=
  (lookupAssoc relatedTo s.relationCache).map CacheEntry.total

/-- Modelled from the spec: selector `getReferences` of the oneToMany
reducer — maps each cached id that is present in the RecordStore to its
record; absent ids are simply missing from the mapping. -/
def getReferences (s : CoordState) (reference : String) (relatedTo : CanonicalKey) :
    List (Identifier × Record) :=
  (getIds s relatedTo).filterMap fun i =>
    (lookupAssoc (reference, i) s.recordStore).map fun r => (i, r)

/-- Whether a request state reports loading. -/
def RequestState.isLoading : RequestState → Bool
  | .loading => true
  | _ => false

/-- Whether a request state reports settled (success or failure). -/
def RequestState.isLoaded : RequestState → Bool
  | .success => true
  | .failure _ => true
  | _ => false

/-- The error surfaced by a request state. -/
def RequestState.errorOf : RequestState → Option Value
  | .failure e => some e
  | _ => none

/-- The view returned by the hook: data, ids, total, error, loading, loaded. -/
structure View where
  data : List (Identifier × Record)
  ids : List Identifier
  total : Option Nat
  error : Option Value
  loading : Bool
  loaded : Bool
deriving DecidableEq

/-- The composed read view for a canonical key and active fetch descriptor,
as assembled by the hook from the selectors and the request state. -/
def compose (s : CoordState) (resource : String) (key : CanonicalKey)
    (d : FetchDescriptor) : View :=
  { data := getReferences s resource key
    ids := getIds s key
    total := getTotal s key
    error := (requestStateOf s d).errorOf
    loading := (requestStateOf s d).isLoading
    loaded := (requestStateOf s d).isLoaded }

/-- The memoised canonical key computed by the hook: the useMemo at the top
of `useGetManyReference` calls `nameRelatedTo(resource, id,
referencingResource, target, filter)` — pagination and sort are neither
dependencies nor arguments. -/
def relatedToOf (resource target : String) (id : Identifier)
    (pagination : Pagination) (srt : SortSpec) (filter : Filter)
    (referencingResource : String) : CanonicalKey :=
  nameRelatedTo resource id referencingResource target filter

/-- The hook `useGetManyReference`: computes the memoised key, passes the
full query as the fetch descriptor, and composes ids, total, request flags
and data from the store state. -/
def useGetManyReference (s : CoordState) (resource target : String)
    (id : Identifier) (pagination : Pagination) (srt : SortSpec)
    (filter : Filter) (referencingResource : String) : View :=
  compose s resource
    (relatedToOf resource target id pagination srt filter referencingResource)
    ⟨resource, ⟨target, id, pagination, srt, filter⟩⟩

/-- Concrete states and descriptors used to instantiate the theorems. -/
def emptyState : CoordState := ⟨[], [], [], 0⟩

/-- The fetch descriptor of the end-to-end scenario. -/
def scenarioDescriptor : FetchDescriptor :=
  ⟨"comments", ⟨"post_id", Identifier.int 5, ⟨1, 10⟩, ⟨"id", "ASC"⟩, []⟩⟩

/-- First record returned by the scenario transport. -/
def record10 : Record := ⟨Identifier.int 10, [("body", Value.str "x")]⟩

/-- Second record returned by the scenario transport. -/
def record11 : Record := ⟨Identifier.int 11, [("body", Value.str "y")]⟩

/-- The store state after the scenario fetch succeeds. -/
def scenarioFinal : CoordState :=
  completeSuccess (startFetch emptyState scenarioDescriptor) scenarioDescriptor
    "posts" ⟨[record10, record11], 2⟩

/-- A store state holding one cached relation entry, for instantiation. -/
def cachedState : CoordState :=
  ⟨[(descriptorKey scenarioDescriptor "posts",
     ⟨[Identifier.int 1, Identifier.int 2], 2⟩)], [], [], 0⟩

/-- The scenario descriptor moved to page 2, same canonical key. -/
def page2Descriptor : FetchDescriptor :=
  ⟨"comments", ⟨"post_id", Identifier.int 5, ⟨2, 10⟩, ⟨"id", "ASC"⟩, []⟩⟩

/-! ### Helper lemmas -/

theorem lookupAssoc_setAssoc_self {α β : Type} [DecidableEq α] (k : α) (v : β)
    (l : List (α × β)) : lookupAssoc k (setAssoc k v l) = some v := by
  induction l with
  | nil => simp [setAssoc, lookupAssoc]
  | cons p rest ih =>
    by_cases h : p.1 = k
    · simp [setAssoc, lookupAssoc, h]
    · simp [setAssoc, lookupAssoc, h, ih]

theorem lookupAssoc_setAssoc_of_ne {α β : Type} [DecidableEq α] {k k' : α} (v : β)
    (l : List (α × β)) (h : k' ≠ k) :
    lookupAssoc k' (setAssoc k v l) = lookupAssoc k' l := by
  have h' : ¬k = k' := fun he => h he.symm
  induction l with
  | nil => simp [setAssoc, lookupAssoc, h']
  | cons p rest ih =>
    by_cases hp : p.1 = k
    · simp [setAssoc, lookupAssoc, hp, h']
    · simp [setAssoc, lookupAssoc, hp, ih]

theorem startFetch_relationCache (s : CoordState) (d : FetchDescriptor) :
    (startFetch s d).relationCache = s.relationCache := by
  unfold startFetch
  by_cases h : requestStateOf s d = RequestState.loading <;> simp [h]

theorem startFetch_recordStore (s : CoordState) (d : FetchDescriptor) :
    (startFetch s d).recordStore = s.recordStore := by
  unfold startFetch
  by_cases h : requestStateOf s d = RequestState.loading <;> simp [h]

theorem requestStateOf_startFetch_self (s : CoordState) (d : FetchDescriptor) :
    requestStateOf (startFetch s d) d = RequestState.loading := by
  by_cases h : requestStateOf s d = RequestState.loading
  · unfold startFetch
    rw [if_pos h]
    exact h
  · unfold startFetch
    rw [if_neg h]
    simp [requestStateOf, lookupAssoc_setAssoc_self]

theorem requestStateOf_completeSuccess_self (s : CoordState) (d : FetchDescriptor)
    (referencingResource : String) (res : FetchResult) :
    requestStateOf (completeSuccess s d referencingResource res) d
      = RequestState.success := by
  simp [completeSuccess, requestStateOf, lookupAssoc_setAssoc_self]

theorem requestStateOf_completeFailure_self (s : CoordState) (d : FetchDescriptor)
    (e : Value) :
    requestStateOf (completeFailure s d e) d = RequestState.failure e := by
  simp [completeFailure, requestStateOf, lookupAssoc_setAssoc_self]

theorem startFetch_of_loading (s : CoordState) (d : FetchDescriptor)
    (h : requestStateOf s d = RequestState.loading) : startFetch s d = s := by
  unfold startFetch
  rw [if_pos h]

theorem startFetch_transportCount_of_fresh (s : CoordState) (d : FetchDescriptor)
    (h : requestStateOf s d ≠ RequestState.loading) :
    (startFetch s d).transportCount = s.transportCount + 1 := by
  unfold startFetch
  rw [if_neg h]

theorem sortFilter_perm (f : Filter) : (sortFilter f).Perm f :=
  List.perm_insertionSort keyLE f

theorem sortFilter_eq_of_perm (f f' : Filter) (hperm : f.Perm f')
    (hnodup : (f.map Prod.fst).Nodup) : sortFilter f = sortFilter f' := by
  have hp : (sortFilter f).Perm (sortFilter f') :=
    ((sortFilter_perm f).trans hperm).trans (sortFilter_perm f').symm
  have hs1 : List.Sorted keyLE (sortFilter f) := List.sorted_insertionSort keyLE f
  have hs2 : List.Sorted keyLE (sortFilter f') := List.sorted_insertionSort keyLE f'
  have hn1 : ((sortFilter f).map Prod.fst).Nodup :=
    (((sortFilter_perm f).map Prod.fst).nodup_iff).mpr hnodup
  have hn2 : ((sortFilter f').map Prod.fst).Nodup :=
    (((hp.map Prod.fst).nodup_iff).mp hn1)
  have hne1 : (sortFilter f).Pairwise fun p q => p.1 ≠ q.1 := List.pairwise_map.mp hn1
  have hne2 : (sortFilter f').Pairwise fun p q => p.1 ≠ q.1 := List.pairwise_map.mp hn2
  have hlt1 : List.Sorted keyLT (sortFilter f) :=
    (hs1.and hne1).imp fun h => lt_of_le_of_ne h.1 h.2
  have hlt2 : List.Sorted keyLT (sortFilter f') :=
    (hs2.and hne2).imp fun h => lt_of_le_of_ne h.1 h.2
  exact List.eq_of_perm_of_sorted hp hlt1 hlt2

/-! ### Claims -/

/-- C1: for every resource, id, referencingResource, target and filter, and
for every permutation of the filter's key insertion order, `nameRelatedTo`
computes the same canonical key: key derivation is pure and independent of
filter key order. -/
theorem nameRelatedTo_filter_order_independent (resource : String)
    (id : Identifier) (referencingResource target : String) (f f' : Filter)
    (hperm : f.Perm f') (hnodup : (f.map Prod.fst).Nodup) :
    nameRelatedTo resource id referencingResource target f'
      = nameRelatedTo resource id referencingResource target f := by
  unfold nameRelatedTo
  rw [sortFilter_eq_of_perm f f' hperm hnodup]

theorem nameRelatedTo_filter_order_independent_witness :
    nameRelatedTo "comments" (Identifier.int 1) "posts" "post_id"
        [("b", Value.int 2), ("a", Value.int 1)]
      = nameRelatedTo "comments" (Identifier.int 1) "posts" "post_id"
        [("a", Value.int 1), ("b", Value.int 2)] :=
  nameRelatedTo_filter_order_independent "comments" (Identifier.int 1) "posts"
    "post_id" [("a", Value.int 1), ("b", Value.int 2)]
    [("b", Value.int 2), ("a", Value.int 1)] (by decide) (by decide)

/-- C2: the canonical key is injective on its five inputs — two calls of
`nameRelatedTo` produce the same key only when resource, id,
referencingResource and target coincide and the filters have the same
contents (are permutations of each other); contrapositively, any difference
in one of the five components changes the key. -/
theorem nameRelatedTo_sensitive (r1 r2 : String) (i1 i2 : Identifier)
    (rr1 rr2 t1 t2 : String) (f1 f2 : Filter)
    (h : nameRelatedTo r1 i1 rr1 t1 f1 = nameRelatedTo r2 i2 rr2 t2 f2) :
    r1 = r2 ∧ i1 = i2 ∧ rr1 = rr2 ∧ t1 = t2 ∧ f1.Perm f2 := by
  unfold nameRelatedTo at h
  rw [CanonicalKey.mk.injEq] at h
  obtain ⟨h1, h2, h3, h4, h5⟩ := h
  refine ⟨h1, h2, h3, h4, ?_⟩
  exact (sortFilter_perm f1).symm.trans (h5 ▸ sortFilter_perm f2)

theorem nameRelatedTo_sensitive_witness :
    "comments" = "comments" ∧ Identifier.int 1 = Identifier.int 1 ∧
    "posts" = "posts" ∧ "post_id" = "post_id" ∧
    List.Perm ([] : Filter) ([] : Filter) :=
  nameRelatedTo_sensitive "comments" "comments" (Identifier.int 1)
    (Identifier.int 1) "posts" "posts" "post_id" "post_id" [] [] rfl

/-- C3: the memoised canonical key of the hook is computed from
(resource, id, referencingResource, target, filter) only; two queries that
agree on those five components but differ in pagination or sort map to the
same key. -/
theorem relatedTo_ignores_pagination_and_sort
    (resource target referencingResource : String) (id : Identifier)
    (f : Filter) (p p' : Pagination) (so so' : SortSpec) :
    relatedToOf resource target id p so f referencingResource
      = relatedToOf resource target id p' so' f referencingResource := rfl

/-- C4: two requests with identical fetch descriptors issued before the
first settles share one transport operation — the second start is a no-op,
so exactly one transport invocation is counted and both requesters observe
the same single state and hence the same outcome. -/
theorem useQueryWithStore_dedup (s : CoordState) (d : FetchDescriptor)
    (h : requestStateOf s d ≠ RequestState.loading) :
    (startFetch (startFetch s d) d).transportCount = s.transportCount + 1 ∧
    startFetch (startFetch s d) d = startFetch s d := by
  have h2 : startFetch (startFetch s d) d = startFetch s d :=
    startFetch_of_loading (startFetch s d) d (requestStateOf_startFetch_self s d)
  refine ⟨?_, h2⟩
  rw [h2]
  exact startFetch_transportCount_of_fresh s d h

theorem useQueryWithStore_dedup_witness :
    (startFetch (startFetch emptyState scenarioDescriptor) scenarioDescriptor).transportCount
        = emptyState.transportCount + 1 ∧
    startFetch (startFetch emptyState scenarioDescriptor) scenarioDescriptor
      = startFetch emptyState scenarioDescriptor :=
  useQueryWithStore_dedup emptyState scenarioDescriptor (by decide)

/-- C5: the request state machine — after a start the view reports
loading and not loaded; after a successful completion it reports not
loading and loaded and the ids and total are written to the RelationCache
under the request's canonical key; after a failure it reports not loading,
loaded, and the recorded error: loaded means settled in both cases. -/
theorem request_state_machine (s : CoordState) (d : FetchDescriptor)
    (referencingResource resource : String) (key : CanonicalKey)
    (res : FetchResult) (e : Value) :
    (compose (startFetch s d) resource key d).loading = true ∧
    (compose (startFetch s d) resource key d).loaded = false ∧
    (compose (completeSuccess s d referencingResource res) resource key d).loading = false ∧
    (compose (completeSuccess s d referencingResource res) resource key d).loaded = true ∧
    lookupAssoc (descriptorKey d referencingResource)
        (completeSuccess s d referencingResource res).relationCache
      = some ⟨res.data.map Record.id, res.total⟩ ∧
    (compose (completeFailure s d e) resource key d).loading = false ∧
    (compose (completeFailure s d e) resource key d).loaded = true ∧
    (compose (completeFailure s d e) resource key d).error = some e := by
  refine ⟨?_, ?_, ?_, ?_, ?_, ?_, ?_, ?_⟩
  · simp [compose, requestStateOf_startFetch_self, RequestState.isLoading]
  · simp [compose, requestStateOf_startFetch_self, RequestState.isLoaded]
  · simp [compose, requestStateOf_completeSuccess_self, RequestState.isLoading]
  · simp [compose, requestStateOf_completeSuccess_self, RequestState.isLoaded]
  · simp [completeSuccess, lookupAssoc_setAssoc_self]
  · simp [compose, requestStateOf_completeFailure_self, RequestState.isLoading]
  · simp [compose, requestStateOf_completeFailure_self, RequestState.isLoaded]
  · simp [compose, requestStateOf_completeFailure_self, RequestState.errorOf]

/-- C6: in the composed view, ids is the cached entry's ids or the empty
sequence when absent, total is the entry's total or undefined when absent,
and data maps exactly those identifiers of ids that are present in the
RecordStore at composition time. -/
theorem compose_view_consistency (s : CoordState) (resource : String)
    (key : CanonicalKey) (d : FetchDescriptor) :
    (compose s resource key d).ids
        = ((lookupAssoc key s.relationCache).map CacheEntry.ids).getD [] ∧
    (compose s resource key d).total
        = (lookupAssoc key s.relationCache).map CacheEntry.total ∧
    ∀ i r, ((i, r) ∈ (compose s resource key d).data ↔
      i ∈ (compose s resource key d).ids ∧
        lookupAssoc (resource, i) s.recordStore = some r) := by
  refine ⟨rfl, rfl, fun i r => ?_⟩
  show (i, r) ∈ getReferences s resource key ↔ i ∈ getIds s key ∧ _
  unfold getReferences
  constructor
  · intro hmem
    rcases List.mem_filterMap.mp hmem with ⟨a, ha, hfa⟩
    rcases Option.map_eq_some'.mp hfa with ⟨r', hr', heq⟩
    rw [Prod.mk.injEq] at heq
    obtain ⟨rfl, rfl⟩ := heq
    exact ⟨ha, hr'⟩
  · rintro ⟨hi, hr⟩
    exact List.mem_filterMap.mpr ⟨i, hi, by rw [hr]; rfl⟩

/-- C7: stale-while-revalidate — when the canonical key of a newly started
fetch descriptor already has a cached entry, the composed view after the
start still returns the cached ids and total with loading true, and its
data mapping is unchanged from before the start. -/
theorem stale_while_revalidate (s : CoordState) (d : FetchDescriptor)
    (referencingResource resource : String) (entry : CacheEntry)
    (h : lookupAssoc (descriptorKey d referencingResource) s.relationCache
      = some entry) :
    (compose (startFetch s d) resource (descriptorKey d referencingResource) d).ids
        = entry.ids ∧
    (compose (startFetch s d) resource (descriptorKey d referencingResource) d).total
        = some entry.total ∧
    (compose (startFetch s d) resource (descriptorKey d referencingResource) d).loading
        = true ∧
    (compose (startFetch s d) resource (descriptorKey d referencingResource) d).data
        = (compose s resource (descriptorKey d referencingResource) d).data := by
  refine ⟨?_, ?_, ?_, ?_⟩
  · simp [compose, getIds, startFetch_relationCache, h]
  · simp [compose, getTotal, startFetch_relationCache, h]
  · simp [compose, requestStateOf_startFetch_self, RequestState.isLoading]
  · simp [compose, getReferences, getIds, startFetch_relationCache, startFetch_recordStore]

theorem stale_while_revalidate_witness :
    (compose (startFetch cachedState page2Descriptor) "comments"
        (descriptorKey page2Descriptor "posts") page2Descriptor).ids
      = (CacheEntry.mk [Identifier.int 1, Identifier.int 2] 2).ids ∧
    (compose (startFetch cachedState page2Descriptor) "comments"
        (descriptorKey page2Descriptor "posts") page2Descriptor).total
      = some (CacheEntry.mk [Identifier.int 1, Identifier.int 2] 2).total ∧
    (compose (startFetch cachedState page2Descriptor) "comments"
        (descriptorKey page2Descriptor "posts") page2Descriptor).loading = true ∧
    (compose (startFetch cachedState page2Descriptor) "comments"
        (descriptorKey page2Descriptor "posts") page2Descriptor).data
      = (compose cachedState "comments"
          (descriptorKey page2Descriptor "posts") page2Descriptor).data :=
  stale_while_revalidate cachedState page2Descriptor "posts" "comments"
    (CacheEntry.mk [Identifier.int 1, Identifier.int 2] 2) (by decide)

/-- C8: end-to-end scenario — fetching comments of post 5, page 1 by 10,
sorted by id ascending, with an empty filter, where the transport returns
records 10 and 11 with total 2, yields the view with ids 10 and 11,
total 2, data mapping both records, loading false, loaded true and no
error. -/
theorem end_to_end_scenario :
    useGetManyReference scenarioFinal "comments" "post_id" (Identifier.int 5)
        ⟨1, 10⟩ ⟨"id", "ASC"⟩ [] "posts"
      = { data := [(Identifier.int 10, record10), (Identifier.int 11, record11)]
          ids := [Identifier.int 10, Identifier.int 11]
          total := some 2
          error := none
          loading := false
          loaded := true } := by decide

/-- C9: a failed fetch records the error in the request state and surfaces
it through the view's error field, performs no further transport
invocation, and leaves the RelationCache and RecordStore untouched. -/
theorem fetch_failure_containment (s : CoordState) (d : FetchDescriptor)
    (resource : String) (key : CanonicalKey) (e : Value) :
    (completeFailure s d e).relationCache = s.relationCache ∧
    (completeFailure s d e).recordStore = s.recordStore ∧
    (completeFailure s d e).transportCount = s.transportCount ∧
    (compose (completeFailure s d e) resource key d).error = some e ∧
    (compose (completeFailure s d e) resource key d).loading = false ∧
    (compose (completeFailure s d e) resource key d).loaded = true := by
  refine ⟨rfl, rfl, rfl, ?_, ?_, ?_⟩
  · simp [compose, requestStateOf_completeFailure_self, RequestState.errorOf]
  · simp [compose, requestStateOf_completeFailure_self, RequestState.isLoading]
  · simp [compose, requestStateOf_completeFailure_self, RequestState.isLoaded]

/-- C10: the canonical key is a function of resource, id,
referencingResource, target and filter alone — the memoisation dependency
set — and the composed view is a deterministic function of the store state
and the hook's inputs: equal store states and equal inputs yield equal
views. -/
theorem view_deterministic (s s' : CoordState)
    (resource resource' target target' : String) (id id' : Identifier)
    (p p' : Pagination) (so so' : SortSpec) (f f' : Filter) (rr rr' : String)
    (hdeps : f = f' ∧ resource = resource' ∧ id = id' ∧ rr = rr' ∧ target = target')
    (hs : s = s') (hp : p = p') (hso : so = so') :
    nameRelatedTo resource id rr target f
        = nameRelatedTo resource' id' rr' target' f' ∧
    useGetManyReference s resource target id p so f rr
      = useGetManyReference s' resource' target' id' p' so' f' rr' := by
  obtain ⟨rfl, rfl, rfl, rfl, rfl⟩ := hdeps
  subst hs hp hso
  exact ⟨rfl, rfl⟩

theorem view_deterministic_witness :
    nameRelatedTo "comments" (Identifier.int 5) "posts" "post_id" []
        = nameRelatedTo "comments" (Identifier.int 5) "posts" "post_id" [] ∧
    useGetManyReference scenarioFinal "comments" "post_id" (Identifier.int 5)
        ⟨1, 10⟩ ⟨"id", "ASC"⟩ [] "posts"
      = useGetManyReference scenarioFinal "comments" "post_id" (Identifier.int 5)
          ⟨1, 10⟩ ⟨"id", "ASC"⟩ [] "posts" :=
  view_deterministic scenarioFinal scenarioFinal "comments" "comments"
    "post_id" "post_id" (Identifier.int 5) (Identifier.int 5) ⟨1, 10⟩ ⟨1, 10⟩
    ⟨"id", "ASC"⟩ ⟨"id", "ASC"⟩ [] [] "posts" "posts"
    ⟨rfl, rfl, rfl, rfl, rfl⟩ rfl rfl rfl

end ReactAdmin
